import Mathlib

/-!
Verification of the control-center core of an autonomous line-following
vehicle (`control_center.cpp`).  The state machine, plan splicing and
output derivation are embedded as pure Lean functions over an explicit
state record.  C++ integer division truncates toward zero, so it is
rendered as `Int.tdiv`.  Components whose implementation lives outside
the available sources (the distance filter, the stop-line detector, the
`path_blocked` predicate, the angle plausibility predicate `is_expected`,
and the member initializers of the class declaration) are modelled from
the spec; each such definition says so in its doc comment.  The route
planner is an external collaborator and is passed in as a function.
-/

/-- Instruction kinds, from `instruction::InstructionNumber`. -/
inductive InstructionNumber
  | forward
  | left
  | right
  | stop
deriving DecidableEq

/-- A drive instruction: a maneuver kind plus a mission id string. -/
structure DriveInstruction where
  number : InstructionNumber
  id : String
deriving DecidableEq

/-- Control states, from `state::ControlState`. -/
inductive ControlState
  | normal
  | intersection
  | stop_line
  | stopping
  | blocked
deriving DecidableEq

/-- Regulation modes, from `regulation_mode`. -/
inductive RegulationMode
  | auto_nominal
  | auto_critical
deriving DecidableEq

/-- The mutable members of `ControlCenter` that the state machine reads and
writes.  The distance filters and the stop-line detector are held outside
this record: their outputs enter `update_state` as the booleans
`blocked` / `atLine`. -/
structure CCState where
  drive_instructions : List DriveInstruction
  road_segments : List String
  finished_id_buffer : List String
  state : ControlState
  stop_reason : ControlState
  finish_when_stopped : Bool
  consecutive_0_status_codes : Nat
  status_code_threshold : Nat
deriving DecidableEq

/-- Modelled from the spec: the initial member values come from the class
declaration, which is not among the available sources.  The spec fixes the
initial control state to `stop_line` (vehicle assumed stationary with no
active instruction until a mission is set); the queues and the completion
buffer start empty and the consecutive-zero-status counter starts at 0. -/
def initCCState (threshold : Nat) : CCState :=
  { drive_instructions := []
    road_segments := []
    finished_id_buffer := []
    state := ControlState.stop_line
    stop_reason := ControlState.stop_line
    finish_when_stopped := false
    consecutive_0_status_codes := 0
    status_code_threshold := threshold }

/-- `ControlCenter::get_state`. -/
def get_state (s : CCState) : ControlState :=
  s.state

/-- `ControlCenter::finish_instruction`, as the fallible operation it is:
`drive_instructions.front()` on an empty `std::list` is undefined, so the
empty case yields `none`.  Otherwise the front instruction is popped, the
front road segment is popped when one is present, and the popped
instruction's id is appended to the completion buffer. -/
def finish_instruction (s : CCState) : Option CCState :=
  match s.drive_instructions with
  | [] => none
  | intr :: rest =>
      some { s with
        drive_instructions := rest
        road_segments := s.road_segments.tail
        finished_id_buffer := s.finished_id_buffer ++ [intr.id] }

/-- Total companion of `finish_instruction` used inside `update_state`,
where every call site is guarded by a non-emptiness check (the empty plan
is handled by the early-return branch), so the value at `[]` is never
reached from `update_state`. -/
def finishPop (s : CCState) : CCState :=
  match s.drive_instructions with
  | [] => s
  | intr :: rest =>
      { s with
        drive_instructions := rest
        road_segments := s.road_segments.tail
        finished_id_buffer := s.finished_id_buffer ++ [intr.id] }

/-- `ControlCenter::set_new_state`: recompute the control state from the
front instruction (an empty plan counts as `stop`). -/
def set_new_state (s : CCState) (speed : Int) : CCState :=
  match (match s.drive_instructions with
         | [] => InstructionNumber.stop
         | intr :: _ => intr.number) with
  | InstructionNumber.forward => { s with state := ControlState.normal }
  | InstructionNumber.left => { s with state := ControlState.intersection }
  | InstructionNumber.right => { s with state := ControlState.intersection }
  | InstructionNumber.stop =>
      if speed > 0 then
        { s with stop_reason := ControlState.stop_line, state := ControlState.stopping }
      else
        { s with state := ControlState.stop_line }

/-- `ControlCenter::update_state`.  The booleans `blocked` and `atLine`
are the outcomes of `path_blocked(obstacle_distance)` and
`stop_line_detector.at_line(stop_distance)` on this call; both predicates
are implemented outside the available sources. -/
def update_state (s : CCState) (blocked atLine : Bool) (speed : Int) : CCState :=
  match s.drive_instructions with
  | [] =>
      if speed > 0 then
        { s with state := ControlState.stopping, stop_reason := ControlState.stop_line }
      else
        { s with state := ControlState.stop_line }
  | intr :: _ =>
      match s.state with
      | ControlState.normal | ControlState.intersection =>
          if blocked then
            { s with state := ControlState.stopping, stop_reason := ControlState.blocked }
          else if atLine then
            if 1 < s.drive_instructions.length then
              set_new_state (finishPop s) speed
            else
              { s with finish_when_stopped := true, state := ControlState.stopping,
                       stop_reason := ControlState.stop_line }
          else
            s
      | ControlState.stop_line =>
          if blocked then
            { s with state := ControlState.blocked }
          else
            set_new_state
              (if intr.number = InstructionNumber.stop then finishPop s else s) speed
      | ControlState.blocked =>
          if blocked then s else set_new_state s speed
      | ControlState.stopping =>
          if speed = 0 then
            if s.finish_when_stopped then
              { finishPop s with state := s.stop_reason, finish_when_stopped := false }
            else
              { s with state := s.stop_reason }
          else
            s

/-- `ControlCenter::choose_regulation_mode`: bump or reset the
consecutive-zero-status counter, then pick the mode by comparing it with
the configured threshold.  Returns the new counter and the mode written
into the control command. -/
def choose_regulation_mode (count threshold : Nat) (status_code : Int) : Nat × RegulationMode :=
  let c := if status_code = 0 then count + 1 else 0
  (c, if threshold ≤ c then RegulationMode.auto_nominal else RegulationMode.auto_critical)

/-- `ControlCenter::calculate_speed` over the current state; the speed
constants live in the class declaration and are passed in. -/
def calculate_speed (default_speed intersection_speed : Int) (st : ControlState) : Int :=
  match st with
  | ControlState.normal => default_speed
  | ControlState.intersection => intersection_speed
  | ControlState.stop_line => 0
  | ControlState.stopping => 0
  | ControlState.blocked => 0

/-- `ControlCenter::calculate_lateral_position`.  The function begins with
`drive_instructions.front()`, undefined on an empty queue, hence `none`
there.  The `default` branch of the switch (reached for `stop`) logs and
returns 0. -/
def calculate_lateral_position (instrs : List DriveInstruction)
    (lateral_left lateral_right : Int) : Option Int :=
  match instrs with
  | [] => none
  | intr :: _ =>
      some (match intr.number with
        | InstructionNumber.forward => Int.tdiv (lateral_left + lateral_right) 2
        | InstructionNumber.left => lateral_left
        | InstructionNumber.right => lateral_right
        | InstructionNumber.stop => 0)

/-- `ControlCenter::calculate_angle`.  `e` is the plausibility predicate
`is_expected`, modelled from the spec as an abstract predicate (its
implementation is outside the available sources: a sane-physical-range
check).  The front dereference is undefined on an empty queue, hence
`none` there.  The `default` branch (reached for `stop`) leaves the
zero-initialized local `angle` untouched. -/
def calculate_angle (e : Int → Bool) (instrs : List DriveInstruction)
    (angle_left angle_right : Int) : Option Int :=
  match instrs with
  | [] => none
  | intr :: _ =>
      some (match intr.number with
        | InstructionNumber.forward =>
            if e angle_left && e angle_right then
              Int.tdiv (angle_left + angle_right) 2
            else if e angle_left then angle_left
            else if e angle_right then angle_right
            else Int.tdiv (angle_left + angle_right) 2
        | InstructionNumber.left =>
            if e angle_left then angle_left
            else if e angle_right then angle_right
            else angle_left
        | InstructionNumber.right =>
            if e angle_right then angle_right
            else if e angle_left then angle_left
            else angle_right
        | InstructionNumber.stop => 0)

/-- The control command built by each tick (`control_t`). -/
structure control_t where
  angle : Int
  lateral_position : Int
  speed_ref : Int
  regulation_mode : RegulationMode
deriving DecidableEq

/-- `ControlCenter::operator()` (one tick), after the sentinel
normalization and distance filtering whose net effect on the state
machine is the pair of booleans `blocked` / `atLine` (the filters and
both predicates are implemented outside the available sources).  The tick
always runs `update_state` and `choose_regulation_mode`, then calls
`calculate_angle` and `calculate_lateral_position` unconditionally; when
either is undefined (empty plan) the command is `none`, mirroring the
undefined front dereference in the C++. -/
def tick (e : Int → Bool) (default_speed intersection_speed : Int)
    (s : CCState) (blocked atLine : Bool)
    (speed angle_left angle_right lateral_left lateral_right status_code : Int) :
    CCState × Option control_t :=
  let s1 := update_state s blocked atLine speed
  let cm := choose_regulation_mode s1.consecutive_0_status_codes s1.status_code_threshold
              status_code
  let s2 := { s1 with consecutive_0_status_codes := cm.1 }
  match calculate_angle e s2.drive_instructions angle_left angle_right,
        calculate_lateral_position s2.drive_instructions lateral_left lateral_right with
  | some a, some l =>
      (s2, some { angle := a
                  lateral_position := l
                  speed_ref := calculate_speed default_speed intersection_speed s2.state
                  regulation_mode := cm.2 })
  | _, _ => (s2, none)

/-- Helper for building a `DriveInstruction`, as
`add_drive_instruction(instruction, id)` does. -/
def mkInstr (n : InstructionNumber) (id : String) : DriveInstruction :=
  { number := n, id := id }

/-- The mission loop of `ControlCenter::set_drive_missions`: for each
target, append a `stop` instruction tagged with the leg's start waypoint,
push the start waypoint onto the segment queue, then append the planner's
instructions paired one-to-one with the planner's segment names
(`add_drive_instruction(*inst_itr, *segm_itr)`; the C++ while loop is
undefined when the segment list is shorter than the instruction list, and
the claims assume the planner's contract that the lengths match), and
finally splice all planner segments onto the segment queue. -/
def splice_legs (solve : String → String → List InstructionNumber × List String) :
    CCState → String → List String → CCState
  | s, _, [] => s
  | s, start, target :: rest =>
      let p := solve start target
      splice_legs solve
        { s with
          drive_instructions :=
            s.drive_instructions ++ mkInstr InstructionNumber.stop start ::
              List.zipWith mkInstr p.1 p.2
          road_segments := s.road_segments ++ start :: p.2 }
        target rest

/-- `ControlCenter::set_drive_missions`: take the first waypoint as the
start position (`front()` on an empty list is undefined, hence `none`),
clear both queues, then splice every leg.  `solve` is the external route
planner (`path_finder.solve` followed by `get_drive_mission` /
`get_road_segments`). -/
def set_drive_missions (solve : String → String → List InstructionNumber × List String)
    (s : CCState) (target_list : List String) : Option CCState :=
  match target_list with
  | [] => none
  | start :: targets =>
      some (splice_legs solve
        { s with drive_instructions := [], road_segments := [] } start targets)

/-- Modelled from the spec: the `DistanceFilter` implementation is not
among the available sources.  Fixed-capacity window of the last `N`
observations, seeded with `N` copies of `v0`; each call inserts the new
sample, evicts the oldest and returns the integer-truncated mean of the
window. -/
structure DistanceFilter where
  window : List Int
deriving DecidableEq

/-- Modelled from the spec: a `DistanceFilter` constructed with window
length `N` and initial value `v0`. -/
def DistanceFilter.mk0 (N : Nat) (v0 : Int) : DistanceFilter :=
  { window := List.replicate N v0 }

/-- Modelled from the spec: one `filter(x)` call — insert `x`, evict the
oldest sample, return the truncated arithmetic mean of the new window. -/
def DistanceFilter.filter (f : DistanceFilter) (x : Int) : DistanceFilter × Int :=
  let w := f.window.tail ++ [x]
  ({ window := w }, Int.tdiv w.sum (w.length : Int))

/-- State of the filter after `n` consecutive `filter x` calls. -/
def DistanceFilter.run (f : DistanceFilter) (x : Int) : Nat → DistanceFilter
  | 0 => f
  | n + 1 => ((f.run x n).filter x).1

/-- Folding `choose_regulation_mode` over a whole history of status codes,
starting from the freshly constructed counter value 0; the second
component is the regulation mode written on the last tick. -/
def fold_regulation (threshold : Nat) (codes : List Int) : Nat × RegulationMode :=
  codes.foldl (fun p sc => choose_regulation_mode p.1 threshold sc)
    (0, RegulationMode.auto_critical)

/-- The length of the trailing run of zero status codes in a history. -/
def trailing_zero_run (codes : List Int) : Nat :=
  (codes.reverse.takeWhile (fun sc => sc == 0)).length

theorem fold_regulation_append (threshold : Nat) (cs : List Int) (sc : Int) :
    fold_regulation threshold (cs ++ [sc]) =
      choose_regulation_mode (fold_regulation threshold cs).1 threshold sc := by
  simp [fold_regulation, List.foldl_append]

theorem trailing_zero_run_append (cs : List Int) (sc : Int) :
    trailing_zero_run (cs ++ [sc]) =
      if sc = 0 then trailing_zero_run cs + 1 else 0 := by
  by_cases hsc : sc = 0 <;>
    simp [trailing_zero_run, List.reverse_append, List.takeWhile_cons, hsc]

/-- The consecutive-zero-status counter always equals the length of the
trailing zero run of the status-code history. -/
theorem fold_regulation_count (threshold : Nat) (codes : List Int) :
    (fold_regulation threshold codes).1 = trailing_zero_run codes := by
  induction codes using List.reverseRecOn with
  | nil => rfl
  | append_singleton cs sc ih =>
      rw [fold_regulation_append, trailing_zero_run_append]
      by_cases hsc : sc = 0 <;> simp [choose_regulation_mode, hsc, ih]

/-- Claim C1 (evidence of the code bug): with an empty drive-instruction
plan — in particular immediately after construction — the tick has no
defined control command, because `calculate_angle` and
`calculate_lateral_position` dereference the front of the empty
instruction queue. -/
theorem C1_tick_has_no_command_on_empty_plan :
    (tick (fun _ => true) 50 30 (initCCState 3) false false 0 1 2 3 4 0).2 = none := rfl

/-- Claim C5: on `update_state` with an empty instruction plan, the state
becomes `stopping` with reason `stop_line` when still moving and
`stop_line` otherwise; the plan, the segment queue and the completion
buffer are untouched, and the result does not depend on the blocked /
at-line inputs or on any other branch of the state machine. -/
theorem C5_update_state_empty_plan (s : CCState) (blocked atLine : Bool) (speed : Int)
    (h : s.drive_instructions = []) :
    update_state s blocked atLine speed =
      if speed > 0 then
        { s with state := ControlState.stopping, stop_reason := ControlState.stop_line }
      else
        { s with state := ControlState.stop_line } := by
  unfold update_state
  rw [h]

theorem C5_witness :
    update_state (initCCState 3) true true 5 =
      (if (5 : Int) > 0 then
        { initCCState 3 with state := ControlState.stopping,
                             stop_reason := ControlState.stop_line }
      else
        { initCCState 3 with state := ControlState.stop_line }) :=
  C5_update_state_empty_plan (initCCState 3) true true 5 rfl

/-- Claim C7: immediately after construction, before any tick or mission
call, `get_state` returns `stop_line`. -/
theorem C7_initial_state_is_stop_line (threshold : Nat) :
    get_state (initCCState threshold) = ControlState.stop_line := rfl

/-- Claim C3, counterexample: with a configured threshold of 0 (an
`unsigned` constructor parameter, so 0 is a legal configuration), a tick
whose status code is non-zero still yields `auto_nominal`, because the
reset counter 0 already satisfies `0 >= threshold`; the claim demands
`auto_critical` on every non-zero-status tick. -/
theorem C3_counterexample :
    (fold_regulation 0 [1]).2 ≠ RegulationMode.auto_critical := by decide

/-- Claim C3 (amended): on every tick, the regulation mode is
`auto_nominal` exactly when the trailing run of consecutive zero status
codes (including the current tick) has reached the threshold, and —
provided the threshold is at least 1 — any tick with a non-zero status
code yields `auto_critical`. -/
theorem C3_regulation_mode_amended (threshold : Nat) (codes : List Int) (sc : Int) :
    ((fold_regulation threshold (codes ++ [sc])).2 = RegulationMode.auto_nominal ↔
        threshold ≤ trailing_zero_run (codes ++ [sc])) ∧
    (sc ≠ 0 → 1 ≤ threshold →
        (fold_regulation threshold (codes ++ [sc])).2 = RegulationMode.auto_critical) := by
  have hrun : (fold_regulation threshold (codes ++ [sc])).1 =
      trailing_zero_run (codes ++ [sc]) := fold_regulation_count threshold (codes ++ [sc])
  rw [fold_regulation_append] at hrun ⊢
  simp only [choose_regulation_mode] at hrun ⊢
  constructor
  · rw [← hrun]
    by_cases ht : threshold ≤ (if sc = 0 then (fold_regulation threshold codes).1 + 1 else 0) <;>
      simp [ht]
  · intro hsc hthr
    have hz : ¬ threshold ≤ 0 := by omega
    simp [hsc, hz]

theorem C3_witness :
    (fold_regulation 3 ([0, 0, 0] ++ [1])).2 = RegulationMode.auto_critical :=
  (C3_regulation_mode_amended 3 [0, 0, 0] 1).2 (by decide) (by decide)

/-- Claim C8: the angle policy per front instruction.  For `forward`:
truncated average when both readings are plausible, the single plausible
reading when exactly one is, and the raw truncated average when neither
is.  For `left`: the left reading if plausible, else the right reading if
plausible, else the left reading; symmetrically for `right`. -/
theorem C8_angle_policy (e : Int → Bool) (l r : Int) (intr : DriveInstruction)
    (rest : List DriveInstruction) :
    (intr.number = InstructionNumber.forward → e l = true → e r = true →
        calculate_angle e (intr :: rest) l r = some (Int.tdiv (l + r) 2)) ∧
    (intr.number = InstructionNumber.forward → e l = true → e r = false →
        calculate_angle e (intr :: rest) l r = some l) ∧
    (intr.number = InstructionNumber.forward → e l = false → e r = true →
        calculate_angle e (intr :: rest) l r = some r) ∧
    (intr.number = InstructionNumber.forward → e l = false → e r = false →
        calculate_angle e (intr :: rest) l r = some (Int.tdiv (l + r) 2)) ∧
    (intr.number = InstructionNumber.left → e l = true →
        calculate_angle e (intr :: rest) l r = some l) ∧
    (intr.number = InstructionNumber.left → e l = false → e r = true →
        calculate_angle e (intr :: rest) l r = some r) ∧
    (intr.number = InstructionNumber.left → e l = false → e r = false →
        calculate_angle e (intr :: rest) l r = some l) ∧
    (intr.number = InstructionNumber.right → e r = true →
        calculate_angle e (intr :: rest) l r = some r) ∧
    (intr.number = InstructionNumber.right → e r = false → e l = true →
        calculate_angle e (intr :: rest) l r = some l) ∧
    (intr.number = InstructionNumber.right → e r = false → e l = false →
        calculate_angle e (intr :: rest) l r = some r) := by
  refine ⟨?_, ?_, ?_, ?_, ?_, ?_, ?_, ?_, ?_, ?_⟩ <;>
    intros <;> simp_all [calculate_angle]

theorem C8_witness :
    calculate_angle (fun a => decide (-50 ≤ a ∧ a ≤ 50))
      [mkInstr InstructionNumber.forward "m1"] 500 42 = some 42 :=
  (C8_angle_policy (fun a => decide (-50 ≤ a ∧ a ≤ 50)) 500 42
      (mkInstr InstructionNumber.forward "m1") []).2.2.1 rfl (by decide) (by decide)

/-- Claim C4: in state `normal` or `intersection` with an unblocked path,
when the stop-line detector fires: with more than one instruction the
front one is finished and the state is recomputed from the new front
(`set_new_state` after the pop); with exactly one instruction
`finish_when_stopped` is armed and the state becomes `stopping` with
reason `stop_line`.  In state `stopping` with a non-empty plan, nothing
happens while `speed` is non-zero; once `speed = 0` with the flag armed
and reason `stop_line`, the instruction is finished, the state becomes
`stop_line` and the flag is cleared. -/
theorem C4_stop_line_transition (s : CCState) (speed : Int)
    (hst : s.state = ControlState.normal ∨ s.state = ControlState.intersection) :
    (1 < s.drive_instructions.length →
        update_state s false true speed = set_new_state (finishPop s) speed) ∧
    (s.drive_instructions.length = 1 →
        update_state s false true speed =
          { s with finish_when_stopped := true, state := ControlState.stopping,
                   stop_reason := ControlState.stop_line }) ∧
    (∀ t : CCState, t.state = ControlState.stopping → t.drive_instructions ≠ [] →
        (∀ b a : Bool, speed ≠ 0 → update_state t b a speed = t) ∧
        (∀ b a : Bool, t.finish_when_stopped = true →
            t.stop_reason = ControlState.stop_line →
            update_state t b a 0 =
              { finishPop t with state := ControlState.stop_line,
                                 finish_when_stopped := false })) := by
  refine ⟨?_, ?_, ?_⟩
  · intro hlen
    rcases hs : s.drive_instructions with _ | ⟨intr, rest⟩
    · rw [hs] at hlen; simp at hlen
    · have hlen' : 1 < (intr :: rest).length := hs ▸ hlen
      rcases hst with h | h <;> simp [update_state, hs, h, hlen'] <;>
        (intro hr; subst hr; simp at hlen')
  · intro hlen
    rcases hs : s.drive_instructions with _ | ⟨intr, rest⟩
    · rw [hs] at hlen; simp at hlen
    · rw [hs] at hlen
      simp only [List.length_cons, Nat.add_left_eq_self, List.length_eq_zero] at hlen
      subst hlen
      rcases hst with h | h <;> simp [update_state, hs, h]
  · intro t hts htne
    constructor
    · intro b a hsp
      rcases ht : t.drive_instructions with _ | ⟨i, rr⟩
      · exact absurd ht htne
      · simp [update_state, ht, hts, hsp]
    · intro b a hf hrs
      rcases ht : t.drive_instructions with _ | ⟨i, rr⟩
      · exact absurd ht htne
      · simp [update_state, ht, hts, hf, hrs]

theorem C4_witness :
    update_state
      { drive_instructions := [mkInstr InstructionNumber.stop "A"]
        road_segments := ["A"]
        finished_id_buffer := []
        state := ControlState.normal
        stop_reason := ControlState.stop_line
        finish_when_stopped := false
        consecutive_0_status_codes := 0
        status_code_threshold := 3 } false true 5 =
      { drive_instructions := [mkInstr InstructionNumber.stop "A"]
        road_segments := ["A"]
        finished_id_buffer := []
        state := ControlState.stopping
        stop_reason := ControlState.stop_line
        finish_when_stopped := true
        consecutive_0_status_codes := 0
        status_code_threshold := 3 } :=
  (C4_stop_line_transition
      { drive_instructions := [mkInstr InstructionNumber.stop "A"]
        road_segments := ["A"]
        finished_id_buffer := []
        state := ControlState.normal
        stop_reason := ControlState.stop_line
        finish_when_stopped := false
        consecutive_0_status_codes := 0
        status_code_threshold := 3 } 5 (Or.inl rfl)).2.1 rfl

/-- Characterization of `set_drive_missions` on a three-waypoint mission:
both queues are rebuilt from scratch (the result is independent of the
previous queue contents), the instruction queue is a `stop` tagged with
the first waypoint, the zipped planner output for the first leg, a `stop`
tagged with the middle waypoint, then the zipped planner output for the
second leg; the segment queue mirrors this with the waypoint names and
the planner segments.  No other member is touched. -/
theorem set_drive_missions_three
    (solve : String → String → List InstructionNumber × List String)
    (s : CCState) (A B C : String) :
    set_drive_missions solve s [A, B, C] = some
      { s with
        drive_instructions :=
          mkInstr InstructionNumber.stop A ::
            (List.zipWith mkInstr (solve A B).1 (solve A B).2 ++
              mkInstr InstructionNumber.stop B ::
                List.zipWith mkInstr (solve B C).1 (solve B C).2)
        road_segments := A :: ((solve A B).2 ++ B :: (solve B C).2) } := by
  simp [set_drive_missions, splice_legs]

theorem map_number_zipWith :
    ∀ (l1 : List InstructionNumber) (l2 : List String), l1.length = l2.length →
      (List.zipWith mkInstr l1 l2).map DriveInstruction.number = l1
  | [], [], _ => rfl
  | [], b :: t, h => by simp at h
  | a :: l, [], h => by simp at h
  | a :: l, b :: t, h => by
      have h' : l.length = t.length := by simpa using h
      simp [mkInstr, map_number_zipWith l t h']

theorem map_id_zipWith :
    ∀ (l1 : List InstructionNumber) (l2 : List String), l1.length = l2.length →
      (List.zipWith mkInstr l1 l2).map DriveInstruction.id = l2
  | [], [], _ => rfl
  | [], b :: t, h => by simp at h
  | a :: l, [], h => by simp at h
  | a :: l, b :: t, h => by
      have h' : l.length = t.length := by simpa using h
      simp [mkInstr, map_id_zipWith l t h']

theorem zipWith_mkInstr_getElem :
    ∀ (l1 : List InstructionNumber) (l2 : List String) (k : Nat)
      (n : InstructionNumber) (nm : String),
      l1[k]? = some n → l2[k]? = some nm →
      (List.zipWith mkInstr l1 l2)[k]? = some (mkInstr n nm)
  | [], _, k, n, nm, h1, _ => by simp at h1
  | a :: l, [], k, n, nm, _, h2 => by simp at h2
  | a :: l, b :: t, 0, n, nm, h1, h2 => by
      simp only [List.getElem?_cons_zero, Option.some.injEq] at h1 h2
      simp [h1, h2]
  | a :: l, b :: t, k + 1, n, nm, h1, h2 => by
      simp only [List.getElem?_cons_succ] at h1 h2
      simpa using zipWith_mkInstr_getElem l t k n nm h1 h2

/-- Claim C2: `set_drive_missions [A, B, C]` discards both queues without
touching the completion buffer and installs: a `stop` instruction tagged
`A`, the planner's instructions for leg `A`-to-`B` in order, a `stop`
instruction tagged `B`, then the planner's instructions for leg
`B`-to-`C` in order (assuming the planner's instruction and segment lists
for each leg have matching lengths, per its contract). -/
theorem C2_replace_mission
    (solve : String → String → List InstructionNumber × List String)
    (s : CCState) (A B C : String)
    (h1 : (solve A B).1.length = (solve A B).2.length)
    (h2 : (solve B C).1.length = (solve B C).2.length) :
    ∃ s', set_drive_missions solve s [A, B, C] = some s' ∧
      s'.drive_instructions =
        mkInstr InstructionNumber.stop A ::
          (List.zipWith mkInstr (solve A B).1 (solve A B).2 ++
            mkInstr InstructionNumber.stop B ::
              List.zipWith mkInstr (solve B C).1 (solve B C).2) ∧
      s'.drive_instructions.map DriveInstruction.number =
        InstructionNumber.stop ::
          ((solve A B).1 ++ InstructionNumber.stop :: (solve B C).1) ∧
      s'.road_segments = A :: ((solve A B).2 ++ B :: (solve B C).2) ∧
      s'.finished_id_buffer = s.finished_id_buffer := by
  refine ⟨_, set_drive_missions_three solve s A B C, rfl, ?_, rfl, rfl⟩
  simp [map_number_zipWith _ _ h1, map_number_zipWith _ _ h2, mkInstr]

/-- Concrete route planner used by the mission witnesses. -/
def solveW : String → String → List InstructionNumber × List String :=
  fun a b =>
    ([InstructionNumber.forward, InstructionNumber.left], [a ++ "1", b ++ "2"])

theorem C2_witness :
    ∃ s', set_drive_missions solveW (initCCState 3) ["A", "B", "C"] = some s' ∧
      s'.drive_instructions =
        mkInstr InstructionNumber.stop "A" ::
          (List.zipWith mkInstr (solveW "A" "B").1 (solveW "A" "B").2 ++
            mkInstr InstructionNumber.stop "B" ::
              List.zipWith mkInstr (solveW "B" "C").1 (solveW "B" "C").2) ∧
      s'.drive_instructions.map DriveInstruction.number =
        InstructionNumber.stop ::
          ((solveW "A" "B").1 ++ InstructionNumber.stop :: (solveW "B" "C").1) ∧
      s'.road_segments = "A" :: ((solveW "A" "B").2 ++ "B" :: (solveW "B" "C").2) ∧
      s'.finished_id_buffer = (initCCState 3).finished_id_buffer :=
  C2_replace_mission solveW (initCCState 3) "A" "B" "C" rfl rfl

theorem zipWith_mkInstr_length
    (l1 : List InstructionNumber) (l2 : List String) (h : l1.length = l2.length) :
    (List.zipWith mkInstr l1 l2).length = l1.length := by
  simp [List.length_zipWith, h]

/-- The legs of a mission whose waypoint list is `start :: targets`: the
consecutive waypoint pairs, in order. -/
def mission_legs (start : String) (targets : List String) : List (String × String) :=
  List.zip (start :: targets) targets

/-- Characterization of the mission loop for any number of legs: the
instructions appended by `splice_legs` are, leg by leg, a `stop` tagged
with the leg's start waypoint followed by the planner's instructions
zipped with the planner's segment names, and the appended segments are
the leg's start waypoint followed by the planner's segment names.  No
other member is touched. -/
theorem splice_legs_eq (solve : String → String → List InstructionNumber × List String) :
    ∀ (targets : List String) (s : CCState) (start : String),
      splice_legs solve s start targets = { s with
        drive_instructions := s.drive_instructions ++
          ((mission_legs start targets).map (fun p =>
            mkInstr InstructionNumber.stop p.1 ::
              List.zipWith mkInstr (solve p.1 p.2).1 (solve p.1 p.2).2)).flatten
        road_segments := s.road_segments ++
          ((mission_legs start targets).map
            (fun p => p.1 :: (solve p.1 p.2).2)).flatten } := by
  intro targets
  induction targets with
  | nil => intro s start; simp [splice_legs, mission_legs]
  | cons t rest ih =>
      intro s start
      simp only [splice_legs]
      rw [ih]
      simp [mission_legs, List.zip_cons_cons, List.append_assoc]

/-- Claim C10: for every mission spliced by `set_drive_missions` — any
waypoint list `start :: targets`, any number of legs — the resulting
queue is, leg by leg, a synthetic `stop` carrying the leg's start
waypoint name followed by the planner's instructions each paired with the
planner's road-segment name for that step.  Consequently the mission-id
sequence of the queue is, leg by leg, the start waypoint followed by the
planner's segment names, and the instruction-kind sequence is `stop`
followed by the planner's instruction kinds — so completion polling
yields segment names for the planner-supplied (non-stop) instructions and
waypoint names only for the synthetic stops. -/
theorem C10_ids_follow_segments
    (solve : String → String → List InstructionNumber × List String)
    (s : CCState) (start : String) (targets : List String)
    (hsolve : ∀ a b, (solve a b).1.length = (solve a b).2.length) :
    ∃ s', set_drive_missions solve s (start :: targets) = some s' ∧
      s'.drive_instructions =
        ((mission_legs start targets).map (fun p =>
          mkInstr InstructionNumber.stop p.1 ::
            List.zipWith mkInstr (solve p.1 p.2).1 (solve p.1 p.2).2)).flatten ∧
      s'.drive_instructions.map DriveInstruction.id =
        ((mission_legs start targets).map
          (fun p => p.1 :: (solve p.1 p.2).2)).flatten ∧
      s'.drive_instructions.map DriveInstruction.number =
        ((mission_legs start targets).map (fun p =>
          InstructionNumber.stop :: (solve p.1 p.2).1)).flatten := by
  have hmain : set_drive_missions solve s (start :: targets) = some
      { s with
        drive_instructions := ((mission_legs start targets).map (fun p =>
          mkInstr InstructionNumber.stop p.1 ::
            List.zipWith mkInstr (solve p.1 p.2).1 (solve p.1 p.2).2)).flatten
        road_segments := ((mission_legs start targets).map
          (fun p => p.1 :: (solve p.1 p.2).2)).flatten } := by
    simp only [set_drive_missions, Option.some.injEq]
    rw [splice_legs_eq]
    simp
  refine ⟨_, hmain, rfl, ?_, ?_⟩
  · rw [List.map_flatten, List.map_map]
    refine congrArg List.flatten (List.map_congr_left fun p _ => ?_)
    simp [Function.comp, mkInstr, map_id_zipWith _ _ (hsolve p.1 p.2)]
  · rw [List.map_flatten, List.map_map]
    refine congrArg List.flatten (List.map_congr_left fun p _ => ?_)
    simp [Function.comp, mkInstr, map_number_zipWith _ _ (hsolve p.1 p.2)]

theorem C10_witness :
    ∃ s', set_drive_missions solveW (initCCState 3) ("A" :: ["B", "C"]) = some s' ∧
      s'.drive_instructions =
        ((mission_legs "A" ["B", "C"]).map (fun p =>
          mkInstr InstructionNumber.stop p.1 ::
            List.zipWith mkInstr (solveW p.1 p.2).1 (solveW p.1 p.2).2)).flatten ∧
      s'.drive_instructions.map DriveInstruction.id =
        ((mission_legs "A" ["B", "C"]).map
          (fun p => p.1 :: (solveW p.1 p.2).2)).flatten ∧
      s'.drive_instructions.map DriveInstruction.number =
        ((mission_legs "A" ["B", "C"]).map (fun p =>
          InstructionNumber.stop :: (solveW p.1 p.2).1)).flatten :=
  C10_ids_follow_segments solveW (initCCState 3) "A" ["B", "C"] (fun _ _ => rfl)

/-- The queue-alignment invariant: the segment queue is never longer than
the instruction queue. -/
def seg_inv (s : CCState) : Prop :=
  s.road_segments.length ≤ s.drive_instructions.length

instance (s : CCState) : Decidable (seg_inv s) := by
  unfold seg_inv
  infer_instance

/-- `n` consecutive `finish_instruction` calls. -/
def finish_iter : Nat → CCState → Option CCState
  | 0, s => some s
  | n + 1, s => (finish_instruction s).bind (finish_iter n)

theorem finish_instruction_seg_inv {s s' : CCState} (hinv : seg_inv s)
    (h : finish_instruction s = some s') : seg_inv s' := by
  unfold finish_instruction at h
  rcases hd : s.drive_instructions with _ | ⟨intr, rest⟩
  · rw [hd] at h; simp at h
  · rw [hd] at h
    simp only [Option.some.injEq] at h
    subst h
    unfold seg_inv at hinv ⊢
    rw [hd] at hinv
    simp only [List.length_tail, List.length_cons] at *
    omega

theorem splice_legs_seg_inv
    (solve : String → String → List InstructionNumber × List String)
    (hsolve : ∀ a b, (solve a b).1.length = (solve a b).2.length) :
    ∀ (targets : List String) (s : CCState) (start : String), seg_inv s →
      seg_inv (splice_legs solve s start targets) := by
  intro targets
  induction targets with
  | nil => intro s start h; exact h
  | cons target rest ih =>
      intro s start h
      apply ih
      unfold seg_inv at h ⊢
      simp only [List.length_append, List.length_cons, List.length_zipWith,
        hsolve start target, min_self]
      omega

/-- Claim C6: the invariant `len(road_segments) <= len(drive_instructions)`
is preserved by every sequence of `finish_instruction` calls and holds
after every `set_drive_missions` call, assuming the planner returns
instruction and segment sequences of equal length. -/
theorem C6_plan_segment_alignment :
    (∀ (n : Nat) (s s' : CCState), seg_inv s → finish_iter n s = some s' → seg_inv s') ∧
    (∀ (solve : String → String → List InstructionNumber × List String)
        (s s' : CCState) (target_list : List String),
        (∀ a b, (solve a b).1.length = (solve a b).2.length) →
        set_drive_missions solve s target_list = some s' → seg_inv s') := by
  constructor
  · intro n
    induction n with
    | zero =>
        intro s s' h hit
        simp only [finish_iter, Option.some.injEq] at hit
        exact hit ▸ h
    | succ n ih =>
        intro s s' h hit
        simp only [finish_iter] at hit
        rcases Option.bind_eq_some.mp hit with ⟨t, hft, hrest⟩
        exact ih t s' (finish_instruction_seg_inv h hft) hrest
  · intro solve s s' target_list hsolve hset
    rcases target_list with _ | ⟨start, targets⟩
    · simp [set_drive_missions] at hset
    · simp only [set_drive_missions, Option.some.injEq] at hset
      refine hset ▸ splice_legs_seg_inv solve hsolve targets _ start ?_
      simp [seg_inv]

theorem C6_witness :
    seg_inv
      { drive_instructions := [mkInstr InstructionNumber.stop "B"]
        road_segments := []
        finished_id_buffer := ["s1"]
        state := ControlState.normal
        stop_reason := ControlState.stop_line
        finish_when_stopped := false
        consecutive_0_status_codes := 0
        status_code_threshold := 3 } :=
  C6_plan_segment_alignment.1 1
    { drive_instructions := [mkInstr InstructionNumber.forward "s1",
                             mkInstr InstructionNumber.stop "B"]
      road_segments := ["s1"]
      finished_id_buffer := []
      state := ControlState.normal
      stop_reason := ControlState.stop_line
      finish_when_stopped := false
      consecutive_0_status_codes := 0
      status_code_threshold := 3 }
    { drive_instructions := [mkInstr InstructionNumber.stop "B"]
      road_segments := []
      finished_id_buffer := ["s1"]
      state := ControlState.normal
      stop_reason := ControlState.stop_line
      finish_when_stopped := false
      consecutive_0_status_codes := 0
      status_code_threshold := 3 }
    (by decide) rfl

theorem run_window (N : Nat) (v0 x : Int) :
    ∀ k, k ≤ N → ((DistanceFilter.mk0 N v0).run x k).window =
      List.replicate (N - k) v0 ++ List.replicate k x := by
  intro k
  induction k with
  | zero => intro _; simp [DistanceFilter.run, DistanceFilter.mk0]
  | succ k ih =>
      intro hk
      have hk' : k ≤ N := Nat.le_of_succ_le hk
      simp only [DistanceFilter.run, DistanceFilter.filter, ih hk']
      have h1 : N - k = (N - (k + 1)) + 1 := by omega
      rw [h1, List.replicate_succ, List.cons_append, List.tail_cons,
        List.append_assoc, ← List.replicate_succ']

/-- Claim C9: a `DistanceFilter` constructed with window length `N >= 1`
and any seed `v0`, fed the same value `x` on `N` consecutive calls,
returns exactly `x` on the `N`-th call. -/
theorem C9_filter_constant_input (N : Nat) (hN : 1 ≤ N) (v0 x : Int) :
    (((DistanceFilter.mk0 N v0).run x (N - 1)).filter x).2 = x := by
  have hw := run_window N v0 x (N - 1) (by omega)
  simp only [DistanceFilter.filter, hw]
  have h1 : N - (N - 1) = 1 := by omega
  rw [h1, List.replicate_one, List.singleton_append, List.tail_cons,
    ← List.replicate_succ']
  have h2 : N - 1 + 1 = N := by omega
  rw [h2]
  simp only [List.sum_replicate, List.length_replicate, nsmul_eq_mul]
  have hN0 : (N : Int) ≠ 0 := by
    exact_mod_cast Nat.pos_iff_ne_zero.mp (by omega)
  exact Int.mul_tdiv_cancel_left x hN0

theorem C9_witness :
    (((DistanceFilter.mk0 2 7).run 3 (2 - 1)).filter 3).2 = 3 :=
  C9_filter_constant_input 2 (by decide) 7 3
